import Mathlib

/-!
Verification development for the baradvisor application.

The definitions below are a shallow embedding of the TypeScript sources:
the Yelp place-data adapter (`src/services/yelp.ts`), the bars data
controller (`src/hooks/use-bars.ts`), the geolocation coordinate provider
(`src/hooks/use-geolocation.ts`), the favorites store and the client-side
filter/sort pipeline of the `Index` page (`src/pages/Index.tsx`), and the
built-in mock dataset (`src/data/bars.ts`).

JavaScript `number` values appearing in the embedded code are plain
decimals (ratings, distances, coordinates); they are modelled as `ℚ`.
Strings are modelled as Lean `String`; the few string primitives the code
uses (`toLowerCase`, `trim`, `includes`) are defined below over the
character list so that they evaluate in the kernel.
-/

/-- Embedding of JavaScript `String.prototype.toLowerCase` (the category
aliases involved are ASCII). -/
def strLower (s : String) : String := ⟨s.data.map Char.toLower⟩

/-- Embedding of JavaScript `String.prototype.trim`: drop whitespace from
both ends. -/
def strTrim (s : String) : String :=
  ⟨((s.data.dropWhile Char.isWhitespace).reverse.dropWhile Char.isWhitespace).reverse⟩

/-- Embedding of JavaScript `String.prototype.includes`: substring test. -/
def strIncludes (s sub : String) : Bool := decide (sub.data <:+: s.data)

/-- Category enumeration `BarType` from `src/data/bars.ts`
(`'Cocktail' | 'Pub' | 'Sports' | 'Wine' | 'Craft-beer' | 'Nightclub'`;
the source literal `'Craft-beer'` is spelled `CraftBeer` here). -/
inductive BarType where
  | Cocktail
  | Pub
  | Sports
  | Wine
  | CraftBeer
  | Nightclub
deriving DecidableEq, BEq

/-- One weekly open interval, from the `BusinessHours` interface of
`src/data/bars.ts` (`end` is reserved in Lean, hence the guillemets). -/
structure YelpOpenInterval where
  is_overnight : Bool
  start : String
  «end» : String
  day : Nat
deriving DecidableEq

/-- Structured weekly hours, from the `BusinessHours` interface of
`src/data/bars.ts`. -/
structure BusinessHours where
  is_open_now : Bool
  hours : List YelpOpenInterval
deriving DecidableEq

/-- Normalized Place Record, the `Bar` interface of `src/data/bars.ts`.
Optional TypeScript fields are `Option`s defaulting to `none` (absent). -/
structure Bar where
  id : String
  name : String
  type : BarType
  coordinates : ℚ × ℚ
  address : String
  rating : ℚ
  image : String
  description : String
  priceLevel : Nat
  phone : Option String := none
  displayPhone : Option String := none
  distance : Option ℚ := none
  categories : Option (List String) := none
  businessHours : Option BusinessHours := none
  isOpenNow : Option Bool := none
deriving DecidableEq

/-- Built-in mock dataset `bars` from `src/data/bars.ts` (fallback data).
None of its entries sets any of the optional fields. -/
def mockBars : List Bar := [
  { id := "1", name := "Magic Ice Bar", type := BarType.Cocktail,
    coordinates := (5.312649, 60.397462), address := "C. Sundts gate 50",
    rating := 4.7,
    image := "https://dynamic-media-cdn.tripadvisor.com/media/photo-o/2b/90/33/6c/enjoy-a-drink-in-the.jpg?w=1000&h=-1&s=1",
    description := "Modern cocktail bar with innovative drinks and stunning waterfront views.",
    priceLevel := 3 },
  { id := "2", name := "Apollon Platebar", type := BarType.Wine,
    coordinates := (5.323083, 60.389679), address := "Vaskerelven 6",
    rating := 4.5,
    image := "https://dynamic-media-cdn.tripadvisor.com/media/photo-o/09/1b/24/6a/photo0jpg.jpg?w=1000&h=-1&s=1",
    description := "A unique cultural hub that combines Norway's oldest independent record store with a popular bar.",
    priceLevel := 2 },
  { id := "3", name := "No Stress Wine Bar", type := BarType.Wine,
    coordinates := (5.326560, 60.394901), address := "Hollendergaten 11",
    rating := 4.5,
    image := "https://lh3.googleusercontent.com/p/AF1QipOzeLC9Z_2OHvrRi7VdYbj5VYf4_Vr3irqAM2jL=s680-w680-h510-rw",
    description := "No Stress is a local cocktail pub with multiple locations, offering sweet cocktails, a cozy atmosphere, and events like music bingo and Mario Kart.",
    priceLevel := 2 },
  { id := "4", name := "Naboen", type := BarType.CraftBeer,
    coordinates := (5.320839, 60.391217), address := "Sigurds gate 8",
    rating := 4.6,
    image := "https://encrypted-tbn0.gstatic.com/images?q=tbn:ANd9GcToEa88jvN3q5sD9FXn6Yj70MPCnBi3sFjztA&s",
    description := "Craft beer haven with rotating taps and knowledgeable staff.",
    priceLevel := 2 },
  { id := "5", name := "Altona Vinbar", type := BarType.Wine,
    coordinates := (5.3265, 60.3954), address := "Strandgaten 81",
    rating := 4.4,
    image := "https://encrypted-tbn0.gstatic.com/images?q=tbn:ANd9GcQDEEhompIPIpUTA5d1IjtvSm_SUltjPa87Ug&s",
    description := "Elegant wine bar in historic Bryggen area.",
    priceLevel := 3 },
  { id := "6", name := "Henrik Øl & Vinstove", type := BarType.CraftBeer,
    coordinates := (5.3247, 60.3963), address := "Engen 10",
    rating := 4.5,
    image := "https://encrypted-tbn0.gstatic.com/images?q=tbn:ANd9GcQYGb__8LmiV2gRQJV2DT08Tq0gCUAQG2OvEQ&s",
    description := "Cozy bar with extensive beer and wine menu.",
    priceLevel := 2 },
  { id := "7", name := "Landmark", type := BarType.Pub,
    coordinates := (5.3241, 60.3951), address := "Rasmus Meyers allé 9",
    rating := 4.7,
    image := "https://images.unsplash.com/photo-1470337458703-46ad1756a187?w=800&h=600&fit=crop",
    description := "Popular pub/night club with a good atmposphere and live DJ on the weekends.",
    priceLevel := 2 },
  { id := "8", name := "Bien Bar", type := BarType.Cocktail,
    coordinates := (5.3245, 60.3935), address := "Vetrlidsallmenningen 21",
    rating := 4.6,
    image := "https://images.unsplash.com/photo-1514362545857-3bc16c4c7d1b?w=800&h=600&fit=crop",
    description := "Popular cocktailbar with classic and innovative drinks.",
    priceLevel := 3 },
  { id := "9", name := "Hectors Hybel", type := BarType.Pub,
    coordinates := (5.3238, 60.3931), address := "Nygårdsgaten 2",
    rating := 4.4,
    image := "https://images.unsplash.com/photo-1543007631-283050bb3e8c?w=800&h=600&fit=crop",
    description := "Student bar with cheap drinks and good music. Quiz every sunday!",
    priceLevel := 1 },
  { id := "10", name := "Café Opera", type := BarType.Pub,
    coordinates := (5.3295, 60.3932), address := "Engen 18",
    rating := 4.0,
    image := "https://images.unsplash.com/photo-1543007631-283050bb3e8c?w=800&h=600&fit=crop",
    description := "Historic pub in the heart of Bergen.",
    priceLevel := 2 }
]

/-- One Yelp category entry (`{ alias, title }`) from the `YelpBusiness`
interface of `src/services/yelp.ts`. -/
structure YelpCategory where
  «alias» : String
  title : String
deriving DecidableEq

/-- Coordinates sub-object of a Yelp business. -/
structure YelpCoordinates where
  latitude : ℚ
  longitude : ℚ
deriving DecidableEq

/-- Location sub-object of a Yelp business. -/
structure YelpLocation where
  address1 : String
  address2 : Option String
  address3 : Option String
  city : String
  zip_code : String
  country : String
  state : String
  display_address : List String
deriving DecidableEq

/-- One entry of a Yelp business's `business_hours` array. -/
structure YelpHoursBlock where
  «open» : List YelpOpenInterval
  hours_type : String
  is_open_now : Bool
deriving DecidableEq

/-- Upstream business object (`YelpBusiness` interface of
`src/services/yelp.ts`). `price` is documented upstream as one of
`"$"`, `"$$"`, `"$$$"`, `"$$$$"` when present. -/
structure YelpBusiness where
  id : String
  name : String
  image_url : String
  is_closed : Bool
  url : String
  review_count : Nat
  categories : List YelpCategory
  rating : ℚ
  coordinates : YelpCoordinates
  transactions : List String
  price : Option String
  location : YelpLocation
  phone : String
  display_phone : String
  distance : ℚ
  business_hours : Option (List YelpHoursBlock)
deriving DecidableEq

/-- Search response body (`YelpSearchResponse` of `src/services/yelp.ts`). -/
structure YelpSearchResponse where
  businesses : List YelpBusiness
  total : Nat
deriving DecidableEq

/-- Category derivation `determineBarType` of `src/services/yelp.ts`:
scan the category list in order and return on the first alias matching one
of the ordered substring rules; default to `Pub`. -/
def determineBarType : List YelpCategory → BarType
  | [] => BarType.Pub
  | c :: rest =>
    if strIncludes (strLower c.alias) "cocktail" then BarType.Cocktail
    else if strIncludes (strLower c.alias) "wine" then BarType.Wine
    else if strIncludes (strLower c.alias) "sports" then BarType.Sports
    else if strIncludes (strLower c.alias) "nightclub" || strLower c.alias == "nightlife" then
      BarType.Nightclub
    else if strIncludes (strLower c.alias) "brew" || strIncludes (strLower c.alias) "beer" then
      BarType.CraftBeer
    else if strIncludes (strLower c.alias) "pub" then BarType.Pub
    else determineBarType rest

/-- Modelled from the spec (§4.2, §8): the ordered substring rules of the
category-derivation policy, applied to one lower-cased label. Used to state
the first-match refinement property of `determineBarType`. -/
def categoryRule (label : String) : Option BarType :=
  if strIncludes label "cocktail" then some BarType.Cocktail
  else if strIncludes label "wine" then some BarType.Wine
  else if strIncludes label "sports" then some BarType.Sports
  else if strIncludes label "nightclub" || label == "nightlife" then some BarType.Nightclub
  else if strIncludes label "brew" || strIncludes label "beer" then some BarType.CraftBeer
  else if strIncludes label "pub" then some BarType.Pub
  else none

/-- Price derivation `convertPriceLevel` of `src/services/yelp.ts`:
`if (!price) return 2; return price.length;` (JavaScript `!price` is true
for an absent and for an empty string). -/
def convertPriceLevel : Option String → Nat
  | none => 2
  | some price => if price == "" then 2 else price.length

/-- Image fallback `getImageUrl` of `src/services/yelp.ts`. -/
def getImageUrl (business : YelpBusiness) : String :=
  if business.image_url != "" && strTrim business.image_url != "" then
    business.image_url
  else
    let categoryAlias :=
      match business.categories.head? with
      | some c => if strLower c.alias == "" then "" else strLower c.alias
      | none => ""
    if strIncludes categoryAlias "cocktail" then
      "https://images.unsplash.com/photo-1514362545857-3bc16c4c7d1b?w=800&h=600&fit=crop"
    else if strIncludes categoryAlias "wine" then
      "https://images.unsplash.com/photo-1510812431401-41d2bd2722f3?w=800&h=600&fit=crop"
    else if strIncludes categoryAlias "brew" || strIncludes categoryAlias "beer" then
      "https://images.unsplash.com/photo-1608270586620-248524c67de9?w=800&h=600&fit=crop"
    else if strIncludes categoryAlias "pub" then
      "https://images.unsplash.com/photo-1543007631-283050bb3e8c?w=800&h=600&fit=crop"
    else if strIncludes categoryAlias "nightclub" || strIncludes categoryAlias "nightlife" then
      "https://images.unsplash.com/photo-1470337458703-46ad1756a187?w=800&h=600&fit=crop"
    else
      "https://images.unsplash.com/photo-1566417713940-fe7c737a9ef2?w=800&h=600&fit=crop"

/-- Conversion `convertToBar` of `src/services/yelp.ts`: normalize one
upstream business object into a Place Record. -/
def convertToBar (business : YelpBusiness) : Bar :=
  let businessHours := business.business_hours.bind List.head?
  { id := business.id
    name := business.name
    type := determineBarType business.categories
    coordinates := (business.coordinates.longitude, business.coordinates.latitude)
    address := String.intercalate ", " business.location.display_address
    rating := business.rating
    image := getImageUrl business
    description :=
      (match business.categories.head? with
       | some c => if c.title == "" then "Bar" else c.title
       | none => "Bar") ++ " • " ++ toString business.review_count ++ " reviews"
    priceLevel := convertPriceLevel business.price
    phone := some business.phone
    displayPhone := some business.display_phone
    distance := some business.distance
    categories := some (business.categories.map YelpCategory.title)
    businessHours := businessHours.map (fun bh => { is_open_now := bh.is_open_now, hours := bh.«open» })
    isOpenNow := businessHours.map YelpHoursBlock.is_open_now }

/-- Query parameters built by `fetchBarsFromYelp` in `src/services/yelp.ts`
(the `URLSearchParams` of the search request). -/
structure YelpSearchParams where
  latitude : ℚ
  longitude : ℚ
  radius : Int
  categories : String
  limit : Int
  sort_by : String
deriving DecidableEq

/-- Bergen fallback coordinate constant (`BERGEN_COORDINATES`), shared by
`src/services/yelp.ts` and `src/hooks/use-geolocation.ts`. -/
structure Coordinates where
  latitude : ℚ
  longitude : ℚ
deriving DecidableEq

/-- Bergen, Norway coordinates. -/
def BERGEN_COORDINATES : Coordinates := { latitude := 60.3913, longitude := 5.3221 }

/-- Request-parameter construction of `fetchBarsFromYelp`
(`src/services/yelp.ts`): radius is clamped with `Math.min(radius, 40000)`
(Yelp max is 40 km) and limit with `Math.min(limit, 50)` (Yelp max is 50). -/
def yelpSearchParams (radius limit : Int) : YelpSearchParams :=
  { latitude := BERGEN_COORDINATES.latitude
    longitude := BERGEN_COORDINATES.longitude
    radius := min radius 40000
    categories := "bars,cocktailbars,pubs,sportsbars,winebars,breweries,brewpubs,lounges"
    limit := min limit 50
    sort_by := "distance" }

/-- HTTP outcome of the Yelp search request as observed by
`fetchBarsFromYelp`: `ok`/`status` of the response, the text body read on
failure, and the parsed JSON on success. -/
structure YelpHttpResponse where
  ok : Bool
  status : Nat
  body : String
  data : YelpSearchResponse
deriving DecidableEq

/-- Credential check at the top of `fetchBarsFromYelp`
(`!YELP_API_KEY || YELP_API_KEY === 'your_api_key_here'`); an absent or
empty key is falsy in JavaScript. -/
def yelpKeyConfigured : Option String → Bool
  | none => false
  | some k => !(k == "" || k == "your_api_key_here")

/-- Response handling of `fetchBarsFromYelp` (`src/services/yelp.ts`):
fail fast on a missing credential, raise a descriptive error on a
non-success HTTP outcome, return `[]` when no businesses are found, and
otherwise map `convertToBar` over the results. -/
def fetchBarsFromYelp (apiKey : Option String) (resp : YelpHttpResponse) :
    Except String (List Bar) :=
  if !yelpKeyConfigured apiKey then
    Except.error "Yelp API key is not configured. Please add VITE_YELP_API_KEY to your .env file."
  else if !resp.ok then
    Except.error ("Yelp API error: " ++ toString resp.status ++ " - " ++ resp.body)
  else if resp.data.businesses.isEmpty then
    Except.ok []
  else
    Except.ok (resp.data.businesses.map convertToBar)

/-- Controller state of the `useBars` hook (`src/hooks/use-bars.ts`). -/
structure UseBarsState where
  bars : List Bar
  loading : Bool
  error : Option String
  usingMockData : Bool
deriving DecidableEq

/-- Completion of one fetch attempt in `useBars` (`src/hooks/use-bars.ts`):
on success `setBars(data); setUsingMockData(false)` with the error cleared
at fetch start; on failure `setError(message); setBars(mockBars);
setUsingMockData(true)`. The previous state is overwritten in both cases. -/
def fetchBarsEffect (_prev : UseBarsState) (outcome : Except String (List Bar)) : UseBarsState :=
  match outcome with
  | Except.ok data => { bars := data, loading := false, error := none, usingMockData := false }
  | Except.error msg =>
      { bars := mockBars, loading := false, error := some msg, usingMockData := true }

/-- Fetch guard of the `useBars` effect: fetch only when the API is enabled
(`config.useApi`, `src/config/app.ts`) and a coordinate is available. -/
def fetchIssued (useApi : Bool) (coordinates : Option Coordinates) : Bool :=
  useApi && coordinates.isSome

/-- Value of `config.useApi` in `src/config/app.ts`. -/
def configUseApi : Bool := true

/-- Failure kinds of the device geolocation request handled by
`useGeolocation` (`src/hooks/use-geolocation.ts`): the three
`GeolocationPositionError` codes plus the unsupported-API branch. -/
inductive GeoFailure where
  | permissionDenied
  | positionUnavailable
  | timeout
  | unsupported
deriving DecidableEq

/-- Result published by `useGeolocation` on a geolocation failure. -/
structure GeolocationFallback where
  coordinates : Coordinates
  error : String
deriving DecidableEq

/-- Failure handling of `useGeolocation` (`src/hooks/use-geolocation.ts`):
every failure kind yields the Bergen fallback coordinate together with a
kind-specific message. -/
def useGeolocationFailure : GeoFailure → GeolocationFallback
  | GeoFailure.permissionDenied =>
      { coordinates := BERGEN_COORDINATES
        error := "Location permission denied. Using Bergen city center." }
  | GeoFailure.positionUnavailable =>
      { coordinates := BERGEN_COORDINATES
        error := "Location information unavailable. Using Bergen city center." }
  | GeoFailure.timeout =>
      { coordinates := BERGEN_COORDINATES
        error := "Location request timed out. Using Bergen city center." }
  | GeoFailure.unsupported =>
      { coordinates := BERGEN_COORDINATES
        error := "Geolocation is not supported by your browser" }

/-- Favorites toggle of the `Index` page (`src/pages/Index.tsx`): the
JavaScript `Set` is modelled as its insertion-order list of ids; `delete`
removes the id, `add` appends it at the end. -/
def toggleFavorite (barId : String) (favorites : List String) : List String :=
  if barId ∈ favorites then favorites.erase barId else favorites ++ [barId]

/-- Persisted serialization of the favorites store
(`JSON.stringify(Array.from(favorites))` under the `'bar-favorites'` key):
a JSON array of the ids in insertion order. -/
def serializeFavorites (favorites : List String) : String :=
  "[" ++ String.intercalate "," (favorites.map (fun id => "\"" ++ id ++ "\"")) ++ "]"

/-- Sort modes (`SortOption` of `src/components/FilterDialog.tsx`); the
source literals `'price-low'`, `'price-high'` and `'default'` are spelled
`priceLow`, `priceHigh` and `defaultSort` here. -/
inductive SortOption where
  | rating
  | distance
  | priceLow
  | priceHigh
  | reviews
  | defaultSort
deriving DecidableEq

/-- Filter/sort configuration held by the `Index` page
(`selectedType`, `showFavoritesOnly`, `minRating`, `openOnly`, `sortBy`). -/
structure FilterConfig where
  selectedType : Option BarType
  showFavoritesOnly : Bool
  minRating : ℚ
  openOnly : Bool
  sortBy : SortOption
deriving DecidableEq

/-- Decimal digit run parsed as a number (the `parseInt(match[1])` of the
reviews sort). -/
def parseNatDigits (ds : List Char) : Nat :=
  ds.foldl (fun acc c => 10 * acc + (c.toNat - 48)) 0

/-- Attempt to match the regex `(\d+)\s+reviews?` (case-insensitive) at the
head of a character list: a digit run, then whitespace, then `review`. -/
def reviewsMatchAt (cs : List Char) : Option Nat :=
  let ds := cs.takeWhile Char.isDigit
  if ds.isEmpty then none
  else
    let afterDigits := cs.dropWhile Char.isDigit
    let ws := afterDigits.takeWhile Char.isWhitespace
    if ws.isEmpty then none
    else
      let afterWs := afterDigits.dropWhile Char.isWhitespace
      if "review".data.isPrefixOf (afterWs.map Char.toLower) then some (parseNatDigits ds)
      else none

/-- Leftmost match of `(\d+)\s+reviews?` over a character list. -/
def findReviewCount : List Char → Option Nat
  | [] => none
  | c :: cs =>
    match reviewsMatchAt (c :: cs) with
    | some n => some n
    | none => findReviewCount cs

/-- Review-count extraction `getReviewCount` of the `reviews` sort case in
`src/pages/Index.tsx`: first regex match over the description, else 0. -/
def getReviewCount (bar : Bar) : Nat := (findReviewCount bar.description.data).getD 0

/-- Comparator of the `'default'` sort case in `src/pages/Index.tsx`:
records with an open/closed flag first, open before closed among flagged
records, then ascending distance when both present, else descending
rating. -/
def defaultCompare (a b : Bar) : ℚ :=
  if a.isOpenNow.isSome && !b.isOpenNow.isSome then -1
  else if !a.isOpenNow.isSome && b.isOpenNow.isSome then 1
  else if a.isOpenNow.isSome && b.isOpenNow.isSome
          && a.isOpenNow.getD false && !(b.isOpenNow.getD false) then -1
  else if a.isOpenNow.isSome && b.isOpenNow.isSome
          && !(a.isOpenNow.getD false) && b.isOpenNow.getD false then 1
  else
    match a.distance, b.distance with
    | some da, some db => da - db
    | _, _ => b.rating - a.rating

/-- Numeric comparator of the `.sort((a, b) => ...)` switch in
`src/pages/Index.tsx`, one case per sort mode. -/
def compareBars : SortOption → Bar → Bar → ℚ
  | SortOption.rating, a, b => b.rating - a.rating
  | SortOption.distance, a, b =>
    match a.distance, b.distance with
    | some da, some db => da - db
    | _, _ => 0
  | SortOption.reviews, a, b => (getReviewCount b : ℚ) - (getReviewCount a : ℚ)
  | SortOption.priceLow, a, b => (a.priceLevel : ℚ) - (b.priceLevel : ℚ)
  | SortOption.priceHigh, a, b => (b.priceLevel : ℚ) - (a.priceLevel : ℚ)
  | SortOption.defaultSort, a, b => defaultCompare a b

/-- Filter predicate of the `.filter((bar) => ...)` chain in
`src/pages/Index.tsx`: category equality, favorites membership, minimum
rating, open-now flag (JavaScript `!bar.isOpenNow` is true both for an
absent flag and for `false`). -/
def barPasses (cfg : FilterConfig) (favorites : List String) (bar : Bar) : Bool :=
  if (match cfg.selectedType with
      | some t => bar.type != t
      | none => false) then false
  else if cfg.showFavoritesOnly && !(favorites.contains bar.id) then false
  else if decide (0 < cfg.minRating) && decide (bar.rating < cfg.minRating) then false
  else if cfg.openOnly && !(bar.isOpenNow.getD false) then false
  else true

/-- Stable insertion of an element into a list, keeping it before the first
element it compares `le` to. -/
def orderedInsert {α : Type} (le : α → α → Bool) (a : α) : List α → List α
  | [] => [a]
  | b :: l => if le a b then a :: b :: l else b :: orderedInsert le a l

/-- Stable comparison sort; the embedding of JavaScript
`Array.prototype.sort` with comparator `cmp` uses `le a b := cmp a b ≤ 0`
(`sort` is specified as a stable sort, and a stable sort is unique whenever
the comparator is consistent). -/
def sortWith {α : Type} (le : α → α → Bool) (l : List α) : List α :=
  l.foldr (orderedInsert le) []

/-- Whole pipeline `filteredBars` of `src/pages/Index.tsx`:
`bars.filter(...).sort(...)`. -/
def filteredBars (cfg : FilterConfig) (favorites : List String) (bars : List Bar) : List Bar :=
  sortWith (fun a b => decide (compareBars cfg.sortBy a b ≤ 0)) (bars.filter (barPasses cfg favorites))

/-- Concrete upstream business used to instantiate the adapter
invariants: documented price tier, blank upstream photo. -/
def sampleBusiness : YelpBusiness :=
  { id := "b1", name := "Sample Bar", image_url := "", is_closed := false,
    url := "https://yelp.example/b1", review_count := 12,
    categories := [{ «alias» := "winebars", title := "Wine Bars" }],
    rating := 4.5, coordinates := { latitude := 60.39, longitude := 5.32 },
    transactions := [], price := some "$$$",
    location := { address1 := "Street 1", address2 := none, address3 := none,
                  city := "Bergen", zip_code := "5003", country := "NO", state := "",
                  display_address := ["Street 1", "Bergen"] },
    phone := "+4712345678", display_phone := "+47 123 45 678",
    distance := 120, business_hours := none }

/-- Concrete non-success HTTP outcome (status 401). -/
def resp401 : YelpHttpResponse :=
  { ok := false, status := 401, body := "Unauthorized", data := { businesses := [], total := 0 } }

/-- Concrete successful HTTP outcome carrying zero results. -/
def respEmptyOk : YelpHttpResponse :=
  { ok := true, status := 200, body := "", data := { businesses := [], total := 0 } }

/-- Controller state before any fetch completes. -/
def prevIdleState : UseBarsState :=
  { bars := [], loading := true, error := none, usingMockData := false }

/-- Controller state after a failed fetch (mock fallback shown). -/
def prevErrorState : UseBarsState :=
  { bars := mockBars, loading := false,
    error := some "Yelp API error: 401 - Unauthorized", usingMockData := true }

/-- Record flagged open but far away and low-rated. -/
def openFlaggedBar : Bar :=
  { id := "open-low", name := "Open Low-Rated Far Bar", type := BarType.Pub,
    coordinates := (0, 0), address := "a", rating := 1,
    image := "img", description := "d", priceLevel := 2,
    distance := some 5000, isOpenNow := some true }

/-- Record without an open/closed flag, near and highly rated. -/
def unflaggedBar : Bar :=
  { id := "unflagged-high", name := "Unflagged High-Rated Near Bar", type := BarType.Pub,
    coordinates := (0, 0), address := "a", rating := 5,
    image := "img", description := "d", priceLevel := 2,
    distance := some 10 }

/-- Filter configuration selecting only the recommended (default) sort. -/
def cfgRecommended : FilterConfig :=
  { selectedType := none, showFavoritesOnly := false, minRating := 0,
    openOnly := false, sortBy := SortOption.defaultSort }

/-- Filter configuration selecting only the distance sort. -/
def cfgDistanceOnly : FilterConfig :=
  { selectedType := none, showFavoritesOnly := false, minRating := 0,
    openOnly := false, sortBy := SortOption.distance }

/-- Filter configuration enabling only the open-now filter. -/
def cfgOpenNowOnly : FilterConfig :=
  { selectedType := none, showFavoritesOnly := false, minRating := 0,
    openOnly := true, sortBy := SortOption.defaultSort }

/-- Record with distance 3, first in the distance counterexample list. -/
def cexBarFar : Bar :=
  { id := "far", name := "Far Bar", type := BarType.Pub, coordinates := (0, 0),
    address := "a", rating := 4, image := "img", description := "d",
    priceLevel := 2, distance := some 3 }

/-- Record without a distance value. -/
def cexBarNoDist1 : Bar :=
  { id := "nd1", name := "No Distance 1", type := BarType.Pub, coordinates := (0, 0),
    address := "a", rating := 4, image := "img", description := "d", priceLevel := 2 }

/-- Second record without a distance value. -/
def cexBarNoDist2 : Bar :=
  { id := "nd2", name := "No Distance 2", type := BarType.Pub, coordinates := (0, 0),
    address := "a", rating := 4, image := "img", description := "d", priceLevel := 2 }

/-- Record with distance 1, last in the distance counterexample list. -/
def cexBarNear : Bar :=
  { id := "near", name := "Near Bar", type := BarType.Pub, coordinates := (0, 0),
    address := "a", rating := 4, image := "img", description := "d",
    priceLevel := 2, distance := some 1 }

theorem mem_orderedInsert {α : Type} (le : α → α → Bool) (a x : α) (l : List α) :
    x ∈ orderedInsert le a l ↔ x = a ∨ x ∈ l := by
  induction l with
  | nil => simp [orderedInsert]
  | cons b l ih =>
    by_cases h : le a b = true
    · simp [orderedInsert, h]
    · simp only [orderedInsert, if_neg h, List.mem_cons, ih]
      tauto

theorem mem_sortWith {α : Type} (le : α → α → Bool) (x : α) (l : List α) :
    x ∈ sortWith le l ↔ x ∈ l := by
  induction l with
  | nil => simp [sortWith]
  | cons b l ih =>
    show x ∈ orderedInsert le b (sortWith le l) ↔ _
    rw [mem_orderedInsert, ih]
    simp [eq_comm]

theorem pairwise_orderedInsert {α : Type} (le : α → α → Bool)
    (htot : ∀ a b, le a b = true ∨ le b a = true)
    (htr : ∀ a b c, le a b = true → le b c = true → le a c = true)
    (a : α) (l : List α) (hp : l.Pairwise (fun x y => le x y = true)) :
    (orderedInsert le a l).Pairwise (fun x y => le x y = true) := by
  induction l with
  | nil => simp [orderedInsert]
  | cons b l ih =>
    rcases List.pairwise_cons.mp hp with ⟨hb, hl⟩
    by_cases h : le a b = true
    · rw [orderedInsert, if_pos h]
      refine List.pairwise_cons.mpr ⟨?_, hp⟩
      intro x hx
      rcases List.mem_cons.mp hx with rfl | hx
      · exact h
      · exact htr a b x h (hb x hx)
    · rw [orderedInsert, if_neg h]
      refine List.pairwise_cons.mpr ⟨?_, ih hl⟩
      intro x hx
      rcases (mem_orderedInsert le a x l).mp hx with rfl | hx
      · exact (htot x b).resolve_left h
      · exact hb x hx

theorem pairwise_sortWith {α : Type} (le : α → α → Bool)
    (htot : ∀ a b, le a b = true ∨ le b a = true)
    (htr : ∀ a b c, le a b = true → le b c = true → le a c = true)
    (l : List α) : (sortWith le l).Pairwise (fun x y => le x y = true) := by
  induction l with
  | nil => simp [sortWith]
  | cons b l ih => exact pairwise_orderedInsert le htot htr b (sortWith le l) ih

theorem orderedInsert_congr {α : Type} (le le' : α → α → Bool) (a : α) (l : List α)
    (h : ∀ b ∈ l, le a b = le' a b) : orderedInsert le a l = orderedInsert le' a l := by
  induction l with
  | nil => rfl
  | cons b l ih =>
    show (if le a b then _ else _) = (if le' a b then _ else _)
    rw [h b (List.mem_cons_self b l)]
    by_cases hb : le' a b = true
    · simp [hb]
    · simp only [Bool.not_eq_true] at hb
      simp only [hb, if_false, Bool.false_eq_true]
      rw [ih (fun x hx => h x (List.mem_cons_of_mem b hx))]

theorem sortWith_congr {α : Type} (le le' : α → α → Bool) (l : List α)
    (h : ∀ a ∈ l, ∀ b ∈ l, le a b = le' a b) : sortWith le l = sortWith le' l := by
  induction l with
  | nil => rfl
  | cons b l ih =>
    show orderedInsert le b (sortWith le l) = orderedInsert le' b (sortWith le' l)
    rw [ih (fun x hx y hy => h x (List.mem_cons_of_mem b hx) y (List.mem_cons_of_mem b hy))]
    exact orderedInsert_congr le le' b (sortWith le' l)
      (fun x hx => h b (List.mem_cons_self b l) x
        (List.mem_cons_of_mem b ((mem_sortWith le' x l).mp hx)))

/-- Auxiliary unfolding: one scan step of `determineBarType` applies the
ordered substring rules to the head label and recurses on a miss. -/
theorem determineBarType_cons (c : YelpCategory) (rest : List YelpCategory) :
    determineBarType (c :: rest)
      = match categoryRule (strLower c.alias) with
        | some t => t
        | none => determineBarType rest := by
  simp only [determineBarType, categoryRule]
  split_ifs <;> rfl

/-- C1: for every upstream category label list, `determineBarType` returns
the first match of the ordered substring rules (cocktail, wine, sports,
nightclub / exact nightlife, brew / beer, pub) over the list scanned in
order, defaulting to `Pub` when no rule matches any label, and its result
is always one of the six enumerated categories. -/
theorem determineBarType_first_match (cats : List YelpCategory) :
    determineBarType cats
      = (cats.findSome? (fun c => categoryRule (strLower c.alias))).getD BarType.Pub
    ∧ determineBarType cats
        ∈ [BarType.Cocktail, BarType.Pub, BarType.Sports, BarType.Wine,
           BarType.CraftBeer, BarType.Nightclub] := by
  constructor
  · induction cats with
    | nil => rfl
    | cons c rest ih =>
      rw [determineBarType_cons, List.findSome?_cons]
      cases hr : categoryRule (strLower c.alias) with
      | some t => simp
      | none => simpa using ih
  · cases h : determineBarType cats <;> simp

/-- C2: every Place Record produced by `convertToBar` has a non-empty
image (the upstream photo when its trimmed value is non-blank, otherwise
one of the stock fallback images) and a price level in `[1, 4]` — the
character count of the upstream price symbols, or 2 when the price is
absent; the hypothesis is the upstream schema's documented bound of at
most four price symbols. -/
theorem convertToBar_invariants (business : YelpBusiness)
    (hp : ∀ p ∈ business.price, p.length ≤ 4) :
    (convertToBar business).image ≠ ""
    ∧ 1 ≤ (convertToBar business).priceLevel
    ∧ (convertToBar business).priceLevel ≤ 4
    ∧ (business.price = none → (convertToBar business).priceLevel = 2)
    ∧ (∀ p, business.price = some p → p ≠ "" → (convertToBar business).priceLevel = p.length)
    ∧ (strTrim business.image_url ≠ "" → (convertToBar business).image = business.image_url) := by
  have himg : (convertToBar business).image = getImageUrl business := rfl
  have hpl : (convertToBar business).priceLevel = convertPriceLevel business.price := rfl
  refine ⟨?_, ?_, ?_, ?_, ?_, ?_⟩
  · rw [himg]
    simp only [getImageUrl]
    split_ifs with h
    · intro hc
      rw [hc] at h
      simp at h
    all_goals decide
  · rw [hpl]
    cases hb : business.price with
    | none => simp [convertPriceLevel]
    | some p =>
      simp only [convertPriceLevel]
      split_ifs with h
      · decide
      · simp only [beq_iff_eq] at h
        cases p with
        | mk data =>
          cases data with
          | nil => exact absurd rfl h
          | cons c cs => simp [String.length]
  · rw [hpl]
    cases hb : business.price with
    | none => simp [convertPriceLevel]
    | some p =>
      simp only [convertPriceLevel]
      split_ifs with h
      · decide
      · exact hp p (by simp [hb])
  · intro h
    rw [hpl, h]
    rfl
  · intro p h hne
    rw [hpl, h]
    simp [convertPriceLevel, hne]
  · intro h
    have hne : business.image_url ≠ "" := by
      intro hc
      rw [hc] at h
      exact h rfl
    have hcond : (business.image_url != "" && strTrim business.image_url != "") = true := by
      simp [hne, h]
    rw [himg, getImageUrl, if_pos hcond]

/-- Witness for C2 at a concrete upstream business with price `"$$$"` and
a blank upstream photo. -/
theorem convertToBar_invariants_witness :
    sampleBusiness.price = some "$$$"
    ∧ (convertToBar sampleBusiness).image ≠ ""
    ∧ 1 ≤ (convertToBar sampleBusiness).priceLevel
    ∧ (convertToBar sampleBusiness).priceLevel ≤ 4
    ∧ (convertToBar sampleBusiness).priceLevel = 3 :=
  ⟨rfl, (convertToBar_invariants sampleBusiness (by decide)).1,
   (convertToBar_invariants sampleBusiness (by decide)).2.1,
   (convertToBar_invariants sampleBusiness (by decide)).2.2.1,
   (convertToBar_invariants sampleBusiness (by decide)).2.2.2.2.1 "$$$" rfl (by decide)⟩

/-- C3 counterexample: with persisted favorites `["1", "2"]`, toggling the
already-present id `"1"` twice yields the serialization `["2","1"]`, not
the original `["1","2"]` — the claim's serialization equality fails. -/
theorem toggleFavorite_twice_counterexample :
    ¬ (serializeFavorites (toggleFavorite "1" (toggleFavorite "1" ["1", "2"]))
        = serializeFavorites ["1", "2"]) := by decide

/-- C3 amended: toggling an id twice always restores the membership of the
favorites store; the persisted serialization is restored exactly when the
id was not already a favorite, while for an existing favorite the id is
re-appended at the end of the insertion order (other ids keep their
relative order). -/
theorem toggleFavorite_twice_amended (barId : String) (favs : List String) (hnd : favs.Nodup) :
    (∀ x, x ∈ toggleFavorite barId (toggleFavorite barId favs) ↔ x ∈ favs)
    ∧ (barId ∉ favs → toggleFavorite barId (toggleFavorite barId favs) = favs
        ∧ serializeFavorites (toggleFavorite barId (toggleFavorite barId favs))
            = serializeFavorites favs)
    ∧ (barId ∈ favs →
        toggleFavorite barId (toggleFavorite barId favs) = favs.erase barId ++ [barId]) := by
  by_cases hm : barId ∈ favs
  · have h1 : toggleFavorite barId favs = favs.erase barId := by
      simp [toggleFavorite, hm]
    have hnm : barId ∉ favs.erase barId := by
      intro hc
      exact absurd (hnd.mem_erase_iff.mp hc).1 (by simp)
    have h2 : toggleFavorite barId (toggleFavorite barId favs) = favs.erase barId ++ [barId] := by
      rw [h1]
      simp [toggleFavorite, hnm]
    refine ⟨?_, fun hn => absurd hm hn, fun _ => h2⟩
    intro x
    rw [h2]
    by_cases hx : x = barId
    · simp [hx, hm]
    · simp [List.mem_append, hnd.mem_erase_iff, hx]
  · have h1 : toggleFavorite barId favs = favs ++ [barId] := by
      simp [toggleFavorite, hm]
    have h2 : toggleFavorite barId (toggleFavorite barId favs) = favs := by
      rw [h1]
      have : barId ∈ favs ++ [barId] := by simp
      simp only [toggleFavorite, if_pos this]
      rw [List.erase_append_right _ hm]
      simp
    exact ⟨fun x => by rw [h2], fun _ => ⟨h2, by rw [h2]⟩, fun hc => absurd hc hm⟩

/-- Witness for the amended C3 at concrete ids: a double toggle of a
present id re-appends it, a double toggle of an absent id is the
identity. -/
theorem toggleFavorite_twice_amended_witness :
    (["1", "2"] : List String).Nodup
    ∧ toggleFavorite "1" (toggleFavorite "1" ["1", "2"]) = (["1", "2"].erase "1") ++ ["1"]
    ∧ toggleFavorite "3" (toggleFavorite "3" ["1", "2"]) = ["1", "2"] :=
  ⟨by decide,
   (toggleFavorite_twice_amended "1" ["1", "2"] (by decide)).2.2 (by decide),
   ((toggleFavorite_twice_amended "3" ["1", "2"] (by decide)).2.1 (by decide)).1⟩

/-- C4: for every fetch attempt with a configured credential and a
non-success HTTP response, the adapter raises the error
`Yelp API error: <status> - <body>` (which contains both the status and
the body as substrings), and the controller ends with that message in its
error state, the mock dataset as the visible record list, and the
mock-data flag set — the list is never left empty on error. -/
theorem fetchBars_http_error (apiKey : Option String) (resp : YelpHttpResponse)
    (prev : UseBarsState) (hk : yelpKeyConfigured apiKey = true) (hok : resp.ok = false) :
    fetchBarsFromYelp apiKey resp
      = Except.error ("Yelp API error: " ++ toString resp.status ++ " - " ++ resp.body)
    ∧ strIncludes ("Yelp API error: " ++ toString resp.status ++ " - " ++ resp.body)
        (toString resp.status) = true
    ∧ strIncludes ("Yelp API error: " ++ toString resp.status ++ " - " ++ resp.body)
        resp.body = true
    ∧ (fetchBarsEffect prev (fetchBarsFromYelp apiKey resp)).error
        = some ("Yelp API error: " ++ toString resp.status ++ " - " ++ resp.body)
    ∧ (fetchBarsEffect prev (fetchBarsFromYelp apiKey resp)).bars = mockBars
    ∧ (fetchBarsEffect prev (fetchBarsFromYelp apiKey resp)).usingMockData = true
    ∧ (fetchBarsEffect prev (fetchBarsFromYelp apiKey resp)).loading = false := by
  have hfetch : fetchBarsFromYelp apiKey resp
      = Except.error ("Yelp API error: " ++ toString resp.status ++ " - " ++ resp.body) := by
    simp [fetchBarsFromYelp, hk, hok]
  refine ⟨hfetch, ?_, ?_, ?_, ?_, ?_, ?_⟩
  · simp only [strIncludes, decide_eq_true_eq]
    exact ⟨"Yelp API error: ".data, (" - " ++ resp.body).data,
      by simp [String.data_append]⟩
  · simp only [strIncludes, decide_eq_true_eq]
    exact ⟨("Yelp API error: " ++ toString resp.status ++ " - ").data, [],
      by simp [String.data_append]⟩
  · rw [hfetch]; rfl
  · rw [hfetch]; rfl
  · rw [hfetch]; rfl
  · rw [hfetch]; rfl

/-- Witness for C4 at a concrete 401 response: the controller shows the
mock dataset, flags mock data, and the attached message contains "401". -/
theorem fetchBars_http_error_witness :
    yelpKeyConfigured (some "test-key") = true
    ∧ resp401.ok = false
    ∧ (fetchBarsEffect prevIdleState (fetchBarsFromYelp (some "test-key") resp401)).error
        = some ("Yelp API error: " ++ toString resp401.status ++ " - " ++ resp401.body)
    ∧ (fetchBarsEffect prevIdleState (fetchBarsFromYelp (some "test-key") resp401)).bars = mockBars
    ∧ (fetchBarsEffect prevIdleState (fetchBarsFromYelp (some "test-key") resp401)).usingMockData
        = true
    ∧ strIncludes ("Yelp API error: " ++ toString resp401.status ++ " - " ++ resp401.body)
        "401" = true :=
  ⟨by decide, rfl,
   (fetchBars_http_error (some "test-key") resp401 prevIdleState (by decide) rfl).2.2.2.1,
   (fetchBars_http_error (some "test-key") resp401 prevIdleState (by decide) rfl).2.2.2.2.1,
   (fetchBars_http_error (some "test-key") resp401 prevIdleState (by decide) rfl).2.2.2.2.2.1,
   (fetchBars_http_error (some "test-key") resp401 prevIdleState (by decide) rfl).2.1⟩

/-- C5: for every successful fetch (configured credential, HTTP success),
the controller ends in the success state with the error cleared, the
mock-data flag off, and the converted upstream businesses as its record
list, regardless of the previous state; in particular an empty upstream
result yields an empty record list, not the mock dataset. -/
theorem fetchBars_success (apiKey : Option String) (resp : YelpHttpResponse)
    (prev : UseBarsState) (hk : yelpKeyConfigured apiKey = true) (hok : resp.ok = true) :
    fetchBarsFromYelp apiKey resp = Except.ok (resp.data.businesses.map convertToBar)
    ∧ (fetchBarsEffect prev (fetchBarsFromYelp apiKey resp)).error = none
    ∧ (fetchBarsEffect prev (fetchBarsFromYelp apiKey resp)).usingMockData = false
    ∧ (fetchBarsEffect prev (fetchBarsFromYelp apiKey resp)).loading = false
    ∧ (fetchBarsEffect prev (fetchBarsFromYelp apiKey resp)).bars
        = resp.data.businesses.map convertToBar
    ∧ (resp.data.businesses = [] →
        (fetchBarsEffect prev (fetchBarsFromYelp apiKey resp)).bars = []) := by
  have hfetch : fetchBarsFromYelp apiKey resp
      = Except.ok (resp.data.businesses.map convertToBar) := by
    simp only [fetchBarsFromYelp, hk, hok]
    simp only [Bool.not_true, Bool.false_eq_true, if_false]
    split_ifs with h
    · rw [List.isEmpty_iff.mp h]
      rfl
    · rfl
  refine ⟨hfetch, ?_, ?_, ?_, ?_, ?_⟩
  · rw [hfetch]; rfl
  · rw [hfetch]; rfl
  · rw [hfetch]; rfl
  · rw [hfetch]; rfl
  · intro h
    rw [hfetch]
    simp [fetchBarsEffect, h]

/-- Witness for C5: an empty successful response taken from the error
state ends in success with an empty list, no error, and no mock flag. -/
theorem fetchBars_success_witness :
    yelpKeyConfigured (some "test-key") = true
    ∧ respEmptyOk.ok = true
    ∧ prevErrorState.error.isSome = true
    ∧ (fetchBarsEffect prevErrorState (fetchBarsFromYelp (some "test-key") respEmptyOk)).error
        = none
    ∧ (fetchBarsEffect prevErrorState
        (fetchBarsFromYelp (some "test-key") respEmptyOk)).usingMockData = false
    ∧ (fetchBarsEffect prevErrorState (fetchBarsFromYelp (some "test-key") respEmptyOk)).bars
        = [] :=
  ⟨by decide, rfl, rfl,
   (fetchBars_success (some "test-key") respEmptyOk prevErrorState (by decide) rfl).2.1,
   (fetchBars_success (some "test-key") respEmptyOk prevErrorState (by decide) rfl).2.2.1,
   (fetchBars_success (some "test-key") respEmptyOk prevErrorState (by decide) rfl).2.2.2.2.2
     rfl⟩

/-- C6: the `default` sort mode orders records by the three-level
comparator `defaultCompare`: a record carrying an open/closed flag sorts
before one without (regardless of rating or distance), open sorts before
closed among flagged records, and remaining ties break by ascending
distance when both records have one, else by descending rating. -/
theorem defaultCompare_three_level (a b : Bar) :
    compareBars SortOption.defaultSort a b = defaultCompare a b
    ∧ (a.isOpenNow.isSome = true → b.isOpenNow = none → defaultCompare a b = -1)
    ∧ (a.isOpenNow = none → b.isOpenNow.isSome = true → defaultCompare a b = 1)
    ∧ (a.isOpenNow = some true → b.isOpenNow = some false → defaultCompare a b = -1)
    ∧ (a.isOpenNow = some false → b.isOpenNow = some true → defaultCompare a b = 1)
    ∧ (a.isOpenNow.isSome = b.isOpenNow.isSome →
        a.isOpenNow.getD false = b.isOpenNow.getD false →
        defaultCompare a b
          = match a.distance, b.distance with
            | some da, some db => da - db
            | _, _ => b.rating - a.rating) := by
  refine ⟨rfl, ?_, ?_, ?_, ?_, ?_⟩
  · intro h1 h2
    simp [defaultCompare, h1, h2]
  · intro h1 h2
    simp [defaultCompare, h1, h2]
  · intro h1 h2
    simp [defaultCompare, h1, h2]
  · intro h1 h2
    simp [defaultCompare, h1, h2]
  · intro h1 h2
    cases ha : a.isOpenNow <;> cases hb : b.isOpenNow <;>
      simp_all [defaultCompare]

/-- Witness for C6: an open-flagged far low-rated record sorts strictly
before an unflagged near high-rated one, also through the full pipeline. -/
theorem defaultCompare_three_level_witness :
    openFlaggedBar.isOpenNow.isSome = true
    ∧ unflaggedBar.isOpenNow = none
    ∧ defaultCompare openFlaggedBar unflaggedBar = -1
    ∧ filteredBars cfgRecommended [] [unflaggedBar, openFlaggedBar]
        = [openFlaggedBar, unflaggedBar] :=
  ⟨rfl, rfl, (defaultCompare_three_level openFlaggedBar unflaggedBar).2.1 rfl rfl, by decide⟩

/-- C7 counterexample: in `distance` mode the pipeline applied to a list
where two records lack a distance leaves a distance-3 record before a
distance-1 record, so the output is not non-decreasing over the records
that have a distance value. -/
theorem filteredBars_distance_counterexample :
    ¬ ((filteredBars cfgDistanceOnly []
          [cexBarFar, cexBarNoDist1, cexBarNoDist2, cexBarNear]).filterMap
        Bar.distance).Pairwise (fun x y => x ≤ y) := by decide

/-- C7 amended: the pipeline in `rating` mode always returns a list with
non-increasing ratings; in `distance` mode the output is non-decreasing in
distance provided every input record has a distance value (records without
one are compared by a no-op comparator, which breaks the guarantee
otherwise). -/
theorem filteredBars_sorted_amended (cfg : FilterConfig) (favorites : List String)
    (bars : List Bar) :
    (filteredBars { cfg with sortBy := SortOption.rating } favorites bars).Pairwise
      (fun a b => b.rating ≤ a.rating)
    ∧ ((∀ b ∈ bars, b.distance.isSome = true) →
        (filteredBars { cfg with sortBy := SortOption.distance } favorites bars).Pairwise
          (fun a b => a.distance.getD 0 ≤ b.distance.getD 0)) := by
  constructor
  · have h := pairwise_sortWith
      (fun a b => decide (compareBars SortOption.rating a b ≤ 0))
      (fun a b => by
        simp only [compareBars, decide_eq_true_eq, sub_nonpos]
        exact le_total _ _)
      (fun a b c h1 h2 => by
        simp only [compareBars, decide_eq_true_eq, sub_nonpos] at h1 h2 ⊢
        exact le_trans h2 h1)
      (bars.filter (barPasses { cfg with sortBy := SortOption.rating } favorites))
    refine h.imp ?_
    intro a b hab
    simpa [compareBars, sub_nonpos] using hab
  · intro hall
    show (sortWith _ (bars.filter (barPasses _ favorites))).Pairwise _
    have hsub : ∀ b ∈ bars.filter (barPasses { cfg with sortBy := SortOption.distance } favorites),
        b.distance.isSome = true :=
      fun b hb => hall b (List.mem_of_mem_filter hb)
    rw [sortWith_congr _ (fun a b => decide (a.distance.getD 0 ≤ b.distance.getD 0)) _ ?_]
    · have h := pairwise_sortWith
        (fun a b => decide (a.distance.getD 0 ≤ b.distance.getD 0))
        (fun a b => by
          simp only [decide_eq_true_eq]
          exact le_total _ _)
        (fun a b c h1 h2 => by
          simp only [decide_eq_true_eq] at h1 h2 ⊢
          exact le_trans h1 h2)
        (bars.filter (barPasses { cfg with sortBy := SortOption.distance } favorites))
      refine h.imp ?_
      intro a b hab
      simpa using hab
    · intro a ha b hb
      obtain ⟨da, hda⟩ := Option.isSome_iff_exists.mp (hsub a ha)
      obtain ⟨db, hdb⟩ := Option.isSome_iff_exists.mp (hsub b hb)
      simp [compareBars, hda, hdb, sub_nonpos]

/-- Witness for the amended C7 on a two-record list where every record has
a distance value. -/
theorem filteredBars_sorted_amended_witness :
    (filteredBars { cfgDistanceOnly with sortBy := SortOption.rating } []
        [cexBarFar, cexBarNear]).Pairwise (fun a b => b.rating ≤ a.rating)
    ∧ (filteredBars { cfgDistanceOnly with sortBy := SortOption.distance } []
        [cexBarFar, cexBarNear]).Pairwise
        (fun a b => a.distance.getD 0 ≤ b.distance.getD 0) :=
  ⟨(filteredBars_sorted_amended cfgDistanceOnly [] [cexBarFar, cexBarNear]).1,
   (filteredBars_sorted_amended cfgDistanceOnly [] [cexBarFar, cexBarNear]).2 (by decide)⟩

/-- C8: every device-geolocation failure kind yields the fixed Bergen
fallback coordinate together with a distinct human-readable reason (the
permission-denied message contains "denied"), and the controller's fetch
guard then fires with that fallback coordinate. -/
theorem geolocation_fallback_spec :
    (∀ f : GeoFailure, (useGeolocationFailure f).coordinates = BERGEN_COORDINATES)
    ∧ (List.map (fun f => (useGeolocationFailure f).error)
        [GeoFailure.permissionDenied, GeoFailure.positionUnavailable,
         GeoFailure.timeout, GeoFailure.unsupported]).Nodup
    ∧ strIncludes (useGeolocationFailure GeoFailure.permissionDenied).error "denied" = true
    ∧ fetchIssued configUseApi
        (some (useGeolocationFailure GeoFailure.permissionDenied).coordinates) = true := by
  refine ⟨fun f => ?_, by decide, by decide, rfl⟩
  cases f <;> rfl

/-- C9: the adapter's search clamps the radius to the upstream maximum of
40000 meters and the result limit to 50 with `min` before issuing the
request, leaving in-range values unchanged. -/
theorem yelpSearchParams_clamped (radius limit : Int) :
    (yelpSearchParams radius limit).radius = min radius 40000
    ∧ (yelpSearchParams radius limit).radius ≤ 40000
    ∧ (radius ≤ 40000 → (yelpSearchParams radius limit).radius = radius)
    ∧ (yelpSearchParams radius limit).limit = min limit 50
    ∧ (yelpSearchParams radius limit).limit ≤ 50
    ∧ (limit ≤ 50 → (yelpSearchParams radius limit).limit = limit) :=
  ⟨rfl, min_le_right _ _, fun h => min_eq_left h,
   rfl, min_le_right _ _, fun h => min_eq_left h⟩

/-- Witness for C9 at the in-range arguments radius 5000 and limit 50. -/
theorem yelpSearchParams_clamped_witness :
    ((5000 : Int) ≤ 40000) ∧ ((50 : Int) ≤ 50)
    ∧ (yelpSearchParams 5000 50).radius = 5000
    ∧ (yelpSearchParams 5000 50).limit = 50 :=
  ⟨by decide, by decide,
   (yelpSearchParams_clamped 5000 50).2.2.1 (by decide),
   (yelpSearchParams_clamped 5000 50).2.2.2.2.2 (by decide)⟩

/-- C10: with the open-only filter enabled, every record whose open/closed
flag is absent is excluded by the filter predicate (not only records
explicitly marked closed); no record of the built-in mock dataset carries
the flag, so the pipeline filters the whole mock dataset out. -/
theorem openOnly_excludes_undefined :
    (∀ (cfg : FilterConfig) (favorites : List String) (bar : Bar),
        cfg.openOnly = true → bar.isOpenNow = none → barPasses cfg favorites bar = false)
    ∧ (∀ b ∈ mockBars, b.isOpenNow = none)
    ∧ filteredBars cfgOpenNowOnly [] mockBars = [] := by
  refine ⟨?_, by decide, by decide⟩
  intro cfg favorites bar hO hN
  simp [barPasses, hO, hN]

/-- Witness for C10 at a concrete configuration and record. -/
theorem openOnly_excludes_undefined_witness :
    cfgOpenNowOnly.openOnly = true
    ∧ unflaggedBar.isOpenNow = none
    ∧ barPasses cfgOpenNowOnly [] unflaggedBar = false :=
  ⟨rfl, rfl, openOnly_excludes_undefined.1 cfgOpenNowOnly [] unflaggedBar rfl rfl⟩
